import Mathlib

/-!
Verification development for the infra-integrations-sdk repository: the
metric-set component (validation, rate/delta derivation against a Storer,
deterministic serialization), the default-argument loader, and the two
integration builders (v1 and v2).

The metric and persist package implementations are not present in the
sources (only their tests are), so those components are modelled from the
specification; the argument loader and both builders are translated from
the source files.
-/

namespace metric

/-- Modelled from the spec: a metric value is `number | string` (§3, Metric).
Numbers are modelled as rationals so that rate division is exact. -/
inductive MValue where
  | num (q : ℚ)
  | str (s : String)
deriving DecidableEq, Repr

/-- Modelled from the spec: the source-type is a numeric code with four
defined values (the tests submit the out-of-range code 666), declared in
the Go order `GAUGE, RATE, DELTA, ATTRIBUTE`. -/
abbrev SourceType := Nat

def GAUGE : SourceType := 0

def RATE : SourceType := 1

def DELTA : SourceType := 2

def ATTRIBUTE : SourceType := 3

/-- Modelled from the spec: the Storer owns a mapping from key to
`(value, timestamp)` (§3, Stored Entry) -- at most one entry per key.
Timestamps are instants measured in seconds, modelled as rationals.
The in-memory variant starts empty (`persist.NewInMemoryStore`). -/
abbrev Storer := List (String × ℚ × ℚ)

/-- Modelled from the spec: `get(key) -> (value, timestamp, found)` (§4.1);
`none` plays the role of `found = false`. -/
def storerGet : Storer → String → Option (ℚ × ℚ)
  | [], _ => none
  | e :: rest, k => if e.1 = k then some e.2 else storerGet rest k

/-- Modelled from the spec: `set(key, value)` records the value with the
current Clock time, overwriting any prior entry in full (§4.1, §3). -/
def storerSet : Storer → String → ℚ → ℚ → Storer
  | [], k, v, t => [(k, v, t)]
  | e :: rest, k, v, t =>
      if e.1 = k then (k, v, t) :: rest else e :: storerSet rest k v t

/-- Modelled from the spec: a Metric Set is
`(event_type, metrics: mapping from name to resulting value)` created bound
to exactly one Storer reference or none (§3). The result map is modelled
as an association list with at most one entry per name. -/
structure Set where
  event_type : String
  Metrics : List (String × MValue)
  storer : Option Storer
deriving DecidableEq, Repr

/-- Insert into the result map, overwriting the entry for the name when
present (Go map assignment `ms.Metrics[name] = value`). -/
def msInsert : List (String × MValue) → String → MValue → List (String × MValue)
  | [], k, v => [(k, v)]
  | e :: rest, k, v =>
      if e.1 = k then (k, v) :: rest else e :: msInsert rest k v

/-- Lookup in the result map (Go map read `ms.Metrics[name]`). -/
def lookupMetric : List (String × MValue) → String → Option MValue
  | [], _ => none
  | e :: rest, k => if e.1 = k then some e.2 else lookupMetric rest k

/-- Modelled from the spec: the error kinds of `set_metric` (§7). -/
inductive SetMetricError where
  | UnknownSourceType (name : String)
  | InvalidValueType (msg : String)
  | NoStorerConfigured
deriving DecidableEq, Repr

/-- The message carried by each `set_metric` error (§4.2, §7). -/
def errorMessage : SetMetricError → String
  | .UnknownSourceType name => "unknown source type for key " ++ name
  | .InvalidValueType msg => msg
  | .NoStorerConfigured =>
      "integrations built with no store can\x27t use deltas and rates"

/-- Modelled from the spec: `new_metric_set(event_type, storer)` errors when
`event_type` is empty (§6). -/
def NewSet (eventType : String) (storer : Option Storer) : Except String Set :=
  if eventType = "" then .error "event type can\x27t be empty"
  else .ok ⟨eventType, [], storer⟩

/-- Modelled from the spec: `set_metric(name, value, source_type)` (§4.2),
with the Clock passed explicitly as `now`. The validation rules are
evaluated in the spec order: (1) unknown source type, (2) ATTRIBUTE value
shape, (3) numeric value shape for GAUGE/RATE/DELTA, (4) GAUGE stores
verbatim, (5) RATE/DELTA require a Storer and run the derivation
algorithm. The state is threaded explicitly: on error the returned Set is
the input unchanged. -/
def SetMetric (ms : Set) (name : String) (value : MValue)
    (sourceType : SourceType) (now : ℚ) : Set × Option SetMetricError :=
  if sourceType = GAUGE ∨ sourceType = RATE ∨ sourceType = DELTA ∨
      sourceType = ATTRIBUTE then
    if sourceType = ATTRIBUTE then
      match value with
      | .str s => ({ ms with Metrics := msInsert ms.Metrics name (.str s) }, none)
      | .num _ =>
          (ms, some (.InvalidValueType
            ("non-string source type for attribute " ++ name)))
    else
      match value with
      | .str _ =>
          (ms, some (.InvalidValueType
            ("non-numeric source type for metric " ++ name)))
      | .num v =>
          if sourceType = GAUGE then
            ({ ms with Metrics := msInsert ms.Metrics name (.num v) }, none)
          else
            match ms.storer with
            | none => (ms, some .NoStorerConfigured)
            | some st =>
                let prev := storerGet st name
                let st' := storerSet st name v now
                let derived : ℚ :=
                  match prev with
                  | none => 0
                  | some (pv, pt) =>
                      let dv := v - pv
                      let dt := now - pt
                      if dt ≤ 0 then 0
                      else if sourceType = DELTA then dv else dv / dt
                ({ ms with
                    Metrics := msInsert ms.Metrics name (.num derived),
                    storer := some st' }, none)
  else (ms, some (.UnknownSourceType name))

/-- The `(value, timestamp)` baseline recorded for `k` in the Set's bound
Storer, when a Storer is bound and holds the key. -/
def storerEntry (ms : Set) (k : String) : Option (ℚ × ℚ) :=
  ms.storer.bind (fun s => storerGet s k)

/-- Modelled from the spec: numeric values are unwrapped as numbers in the
serialized output (§4.3). An integral rational prints as its integer
numerator (the shape the tests pin down); a non-integral one prints as an
exact fraction. -/
def renderValue : MValue → String
  | .num q =>
      if q.den = 1 then toString q.num
      else toString q.num ++ "/" ++ toString q.den
  | .str s => "\"" ++ s ++ "\""

/-- One serialized field: `"name":value`. -/
def renderEntry (e : String × MValue) : String :=
  "\"" ++ e.1 ++ "\":" ++ renderValue e.2

/-- Comma-separated serialized fields. -/
def renderEntries : List (String × MValue) → String
  | [] => ""
  | [e] => renderEntry e
  | e :: rest => renderEntry e ++ "," ++ renderEntries rest

/-- Field order in the serialized output: lexicographic by field name. -/
def entryLE (a b : String × MValue) : Prop := a.1 ≤ b.1

instance : DecidableRel entryLE := fun a b =>
  decidable_of_iff (a.1.toList ≤ b.1.toList) String.le_iff_toList_le.symm

instance : IsTotal (String × MValue) entryLE := ⟨fun a b => le_total a.1 b.1⟩

instance : IsTrans (String × MValue) entryLE :=
  ⟨fun _ _ _ h1 h2 => le_trans h1 h2⟩

/-- Modelled from the spec: the fields of the serialized form -- every
result-map entry plus the `event_type` field, ordered lexicographically by
field name with `event_type` sorted among the metric names (§4.3). -/
def marshalEntries (ms : Set) : List (String × MValue) :=
  List.insertionSort entryLE
    (msInsert ms.Metrics "event_type" (.str ms.event_type))

/-- Modelled from the spec: deterministic serialization of a Metric Set to
a structured text payload with stable field ordering (§4.3). -/
def MarshalJSON (ms : Set) : String :=
  "\x7b" ++ renderEntries (marshalEntries ms) ++ "\x7d"

end metric

namespace args

/-- The six default-argument globals of the `args` package
(`Verbose, Pretty, All, Metrics, Inventory, Events`). -/
structure ArgsState where
  Verbose : Bool
  Pretty : Bool
  All : Bool
  Metrics : Bool
  Inventory : Bool
  Events : Bool
deriving DecidableEq, Repr

/-- The flag values supplied on the command line or environment: `none`
means the flag was not provided. -/
structure ProvidedFlags where
  verbose : Option Bool
  pretty : Option Bool
  all : Option Bool
  metrics : Option Bool
  inventory : Option Bool
  events : Option Bool
deriving DecidableEq, Repr

/-- The effect of `flag.BoolVar(&v, name, default, usage)` on the variable:
the external flag library registers the flag and immediately sets the
variable to its default; provided values are applied only later, by
`flag.Parse`. -/
def boolVar (dflt : Bool) : Bool := dflt

/-- `LoadDefaultArgs` from the source: registers the six flags (each
`BoolVar` call resetting its global to the default `false`) and then, if
none of `Metrics`, `Inventory`, `Events` is set, forces `All` to `true`. -/
def LoadDefaultArgs (s : ArgsState) : ArgsState :=
  let s := { s with
    Verbose := boolVar false
    Pretty := boolVar false
    All := boolVar false
    Metrics := boolVar false
    Inventory := boolVar false
    Events := boolVar false }
  if !s.Metrics && !s.Inventory && !s.Events then { s with All := true }
  else s

/-- The effect of the external `flag.Parse`: each provided flag value
overwrites its registered variable; absent flags leave the variable as the
registration left it. -/
def flagParse (p : ProvidedFlags) (s : ArgsState) : ArgsState :=
  { Verbose := p.verbose.getD s.Verbose
    Pretty := p.pretty.getD s.Pretty
    All := p.all.getD s.All
    Metrics := p.metrics.getD s.Metrics
    Inventory := p.inventory.getD s.Inventory
    Events := p.events.getD s.Events }

end args

namespace integration

/-- The lock installed on the built integration: Go's `disabledLocker{}`
(whose `Lock` and `Unlock` do nothing) or a real `sync.Mutex`. -/
inductive Locker where
  | disabled
  | mutex
deriving DecidableEq, Repr

/-- An output stream (`io.Writer`): `os.Stdout` or a caller-supplied one. -/
inductive Writer where
  | stdout
  | custom (n : Nat)
deriving DecidableEq, Repr

/-- A logger (`log.Logger`): the default stderr logger or a custom one. -/
inductive Logger where
  | stdErr (verbose : Bool)
  | custom (n : Nat)
deriving DecidableEq, Repr

/-- The runtime shape of the parsed-arguments destination, as inspected by
`reflect` in `checkArguments`: a pointer to a (possibly empty) struct, a
pointer to a non-struct, or a non-pointer value. `Option Arguments` with
`none` plays the role of Go's `nil`. -/
inductive Arguments where
  | ptrEmptyStruct
  | ptrStruct (n : Nat)
  | ptrNonStruct (n : Nat)
  | nonPointer (n : Nat)
deriving DecidableEq, Repr

/-- Go's `val.Kind() == reflect.Ptr && val.Elem().Kind() == reflect.Struct`. -/
def isPtrToStruct : Arguments → Bool
  | .ptrEmptyStruct => true
  | .ptrStruct _ => true
  | .ptrNonStruct _ => false
  | .nonPointer _ => false

/-- A persistence store reference (`persist.Storer`): the in-memory store,
a file store at a path, or a custom implementation. -/
inductive StorerRef where
  | inMemory
  | file (path : String)
  | custom (n : Nat)
deriving DecidableEq, Repr

/-- Modelled from the spec: `persist.DefaultPath(name)` -- a path derived
deterministically from the integration name in a well-known temp/cache
directory (§4.1; the persist package is not among the sources). -/
def DefaultPath (name : String) : String := "/tmp/" ++ name ++ ".json"

/-- The v1 `Integration` record, with the fields the builder configures. -/
structure Integration where
  Name : String
  ProtocolVersion : String
  IntegrationVersion : String
  Entities : List Unit
  writer : Option Writer
  locker : Option Locker
  storer : Option StorerRef
  prettyOutput : Bool
deriving DecidableEq, Repr

/-- The v1 `Builder`. -/
structure Builder where
  integration : Integration
  arguments : Option Arguments
  logger : Option Logger
deriving DecidableEq, Repr

/-- `NewBuilder(name, version)` from the source: protocol version "2", an
empty entity list, output defaulting to stdout. -/
def NewBuilder (name version : String) : Builder :=
  { integration :=
      { Name := name
        ProtocolVersion := "2"
        IntegrationVersion := version
        Entities := []
        writer := some .stdout
        locker := none
        storer := none
        prettyOutput := false }
    arguments := none
    logger := none }

/-- `Builder.Synchronized` from the source: installs a `sync.Mutex`. -/
def Synchronized (b : Builder) : Builder :=
  { b with integration := { b.integration with locker := some .mutex } }

/-- `Builder.Writer` from the source. -/
def WriterOpt (b : Builder) (w : Writer) : Builder :=
  { b with integration := { b.integration with writer := some w } }

/-- `Builder.ParsedArguments` from the source. -/
def ParsedArguments (b : Builder) (dst : Option Arguments) : Builder :=
  { b with arguments := dst }

/-- `Builder.Storer` from the source. -/
def StorerOpt (b : Builder) (c : StorerRef) : Builder :=
  { b with integration := { b.integration with storer := some c } }

/-- `Builder.InMemoryStore` from the source. -/
def InMemoryStore (b : Builder) : Builder :=
  { b with integration := { b.integration with storer := some .inMemory } }

/-- The distinct failure points of `Build` (Go returns distinguishable
error values from each). -/
inductive BuildError where
  | writerNil
  | argumentsInvalid
  | setupArgsFailed
  | storeFailed (msg : String)
  | cacheFailed (msg : String)
deriving DecidableEq, Repr

/-- The external collaborators consulted by `Build`: whether
`args.SetupArgs` succeeds, the resolved default flags
(`GetDefaultArgs(...).Pretty` / `.Verbose`), and the fallible store
constructor `persist.NewFileStore`. -/
structure BuildEnv where
  setupArgsOk : Bool
  pretty : Bool
  verbose : Bool
  newFileStore : String → Except String StorerRef

/-- `Builder.checkArguments` from the source: a `nil` destination is
replaced by a pointer to an empty struct and accepted; otherwise the
destination must be a pointer to a struct. Returns the (possibly
replaced) destination. -/
def checkArguments : Option Arguments → Except BuildError Arguments
  | none => .ok .ptrEmptyStruct
  | some a => if isPtrToStruct a then .ok a else .error .argumentsInvalid

/-- `Builder.Build` from the source: check the writer, default the locker
to the no-op `disabledLocker`, check and set up arguments, default the
storer to a file store at the default path (surfacing construction
failure), and record the pretty-output flag. -/
def Build (env : BuildEnv) (b : Builder) : Except BuildError Integration :=
  if b.integration.writer = none then .error .writerNil
  else
    let locker := match b.integration.locker with
      | none => Locker.disabled
      | some l => l
    match checkArguments b.arguments with
    | .error e => .error e
    | .ok _ =>
        if env.setupArgsOk = false then .error .setupArgsFailed
        else
          match b.integration.storer with
          | some s =>
              .ok { b.integration with
                      locker := some locker
                      storer := some s
                      prettyOutput := env.pretty }
          | none =>
              match env.newFileStore (DefaultPath b.integration.Name) with
              | .error msg => .error (.storeFailed msg)
              | .ok s =>
                  .ok { b.integration with
                          locker := some locker
                          storer := some s
                          prettyOutput := env.pretty }

end integration

namespace v2

/-- The locker type shared with the v1 package. -/
abbrev Locker := integration.Locker

/-- The writer type shared with the v1 package. -/
abbrev Writer := integration.Writer

/-- The parsed-arguments destination shape shared with the v1 package. -/
abbrev Arguments := integration.Arguments

/-- The build-error type shared with the v1 package. -/
abbrev BuildError := integration.BuildError

/-- A cache reference (`cache.Cache`): the default disk-backed cache at a
path, or a caller-supplied implementation. -/
inductive CacheRef where
  | disk (path : String)
  | custom (n : Nat)
deriving DecidableEq, Repr

/-- Modelled from the spec: `cache.DefaultPath(name)` -- a path derived
deterministically from the integration name in a well-known temp/cache
directory (the cache package is not among the sources). -/
def DefaultPath (name : String) : String := "/tmp/" ++ name ++ ".json"

/-- The v2 `Integration` record, with the fields the builder configures. -/
structure Integration where
  Name : String
  ProtocolVersion : String
  IntegrationVersion : String
  Data : List Unit
  writer : Option Writer
  locker : Option Locker
  Cache : Option CacheRef
  prettyOutput : Bool
deriving DecidableEq, Repr

/-- The v2 builder state `integrationBuilderImpl`. -/
structure Builder where
  integration : Integration
  hasCache : Bool
  arguments : Option Arguments
deriving DecidableEq, Repr

/-- `NewIntegration(name, version)` from the source: protocol version "2",
empty data, stdout writer, no cache instance yet but `hasCache = true`. -/
def NewIntegration (name version : String) : Builder :=
  { integration :=
      { Name := name
        ProtocolVersion := "2"
        IntegrationVersion := version
        Data := []
        writer := some .stdout
        locker := none
        Cache := none
        prettyOutput := false }
    hasCache := true
    arguments := none }

/-- `Synchronized` from the source: installs a `sync.Mutex`. -/
def Synchronized (b : Builder) : Builder :=
  { b with integration := { b.integration with locker := some .mutex } }

/-- `Writer` from the source. -/
def WriterOpt (b : Builder) (w : Writer) : Builder :=
  { b with integration := { b.integration with writer := some w } }

/-- `ParsedArguments` from the source. -/
def ParsedArguments (b : Builder) (dst : Option Arguments) : Builder :=
  { b with arguments := dst }

/-- `Cache` from the source: sets the cache and marks `hasCache`. -/
def CacheOpt (b : Builder) (c : CacheRef) : Builder :=
  { b with
      integration := { b.integration with Cache := some c }
      hasCache := true }

/-- `NoCache` from the source: clears the cache and marks `hasCache = false`. -/
def NoCache (b : Builder) : Builder :=
  { b with
      integration := { b.integration with Cache := none }
      hasCache := false }

/-- The external collaborators consulted by the v2 `Build`: whether
`args.SetupArgs` succeeds, the resolved default flags, and the fallible
constructor `cache.NewCache`. -/
structure BuildEnv where
  setupArgsOk : Bool
  pretty : Bool
  verbose : Bool
  newCache : String → Except String CacheRef

/-- `integrationBuilderImpl.checkArguments` from the source (identical to
the v1 check): a `nil` destination is replaced by a pointer to an empty
struct and accepted; otherwise it must be a pointer to a struct. -/
def checkArguments : Option Arguments →
    Except BuildError Arguments
  | none => .ok .ptrEmptyStruct
  | some a =>
      if integration.isPtrToStruct a then .ok a
      else .error .argumentsInvalid

/-- `integrationBuilderImpl.Build` from the source: check the writer,
default the locker to the no-op `disabledLocker`, check and set up
arguments, construct the default disk cache when `Cache` is nil and
`hasCache` holds (surfacing construction failure), and record the
pretty-output flag. (`cache.SetupLogging` only configures logging and is
not modelled.) -/
def Build (env : BuildEnv) (b : Builder) :
    Except BuildError Integration :=
  if b.integration.writer = none then .error .writerNil
  else
    let locker := match b.integration.locker with
      | none => integration.Locker.disabled
      | some l => l
    match checkArguments b.arguments with
    | .error e => .error e
    | .ok _ =>
        if env.setupArgsOk = false then .error .setupArgsFailed
        else
          if b.integration.Cache = none ∧ b.hasCache then
            match env.newCache (DefaultPath b.integration.Name) with
            | .error msg => .error (.cacheFailed msg)
            | .ok c =>
                .ok { b.integration with
                        locker := some locker
                        Cache := some c
                        prettyOutput := env.pretty }
          else
            .ok { b.integration with
                    locker := some locker
                    prettyOutput := env.pretty }

end v2

/-- A concrete v1 build environment for witnesses: argument setup succeeds
and the file-store constructor succeeds at every path. -/
def env1ex : integration.BuildEnv :=
  ⟨true, false, false, fun p => .ok (.file p)⟩

/-- The integration produced by `integration.Build env1ex
(integration.NewBuilder "nri" "1.0")`. -/
def i1ex : integration.Integration :=
  { Name := "nri"
    ProtocolVersion := "2"
    IntegrationVersion := "1.0"
    Entities := []
    writer := some .stdout
    locker := some .disabled
    storer := some (.file "/tmp/nri.json")
    prettyOutput := false }

/-- A concrete v2 build environment for witnesses: argument setup succeeds
and the cache constructor succeeds at every path. -/
def env2ex : v2.BuildEnv :=
  ⟨true, false, false, fun p => .ok (.disk p)⟩

/-- The integration produced by `v2.Build env2ex (v2.Synchronized
(v2.NewIntegration "nri" "1.0"))`. -/
def i2ex : v2.Integration :=
  { Name := "nri"
    ProtocolVersion := "2"
    IntegrationVersion := "1.0"
    Data := []
    writer := some .stdout
    locker := some .mutex
    Cache := some (.disk "/tmp/nri.json")
    prettyOutput := false }

namespace metric

/-- Setting a key then getting it returns exactly the just-written pair. -/
theorem storerGet_storerSet_self (s : Storer) (k : String) (v t : ℚ) :
    storerGet (storerSet s k v t) k = some (v, t) := by
  induction s with
  | nil => simp [storerSet, storerGet]
  | cons e rest ih =>
      by_cases h : e.1 = k
      · simp [storerSet, storerGet, h]
      · simp [storerSet, storerGet, h, ih]

/-- Inserting a name then looking it up returns the just-inserted value. -/
theorem lookupMetric_msInsert_self (m : List (String × MValue)) (k : String)
    (v : MValue) : lookupMetric (msInsert m k v) k = some v := by
  induction m with
  | nil => simp [msInsert, lookupMetric]
  | cons e rest ih =>
      by_cases h : e.1 = k
      · simp [msInsert, lookupMetric, h]
      · simp [msInsert, lookupMetric, h, ih]

/-- The field names of the serialized output are sorted lexicographically. -/
theorem marshalEntries_sorted (ms : Set) :
    List.Sorted (· ≤ ·) ((marshalEntries ms).map Prod.fst) := by
  have h := List.sorted_insertionSort entryLE
    (msInsert ms.Metrics "event_type" (.str ms.event_type))
  unfold List.Sorted at h ⊢
  rw [List.pairwise_map]
  exact h

end metric

open metric

/-- C2: For every RATE or DELTA metric key that has no previous entry in
the bound Storer (first-ever observation), `SetMetric` succeeds, places
the derived value 0.0 in the result map, and stores the raw submitted
value with the current timestamp into the Storer as the new baseline. -/
theorem C2_first_observation
    (ms : metric.Set) (s0 : Storer) (name : String) (v now : ℚ)
    (st : SourceType)
    (hst : st = RATE ∨ st = DELTA)
    (hs : ms.storer = some s0)
    (hfirst : storerGet s0 name = none) :
    (SetMetric ms name (.num v) st now).2 = none ∧
    lookupMetric (SetMetric ms name (.num v) st now).1.Metrics name
      = some (.num 0) ∧
    storerEntry (SetMetric ms name (.num v) st now).1 name
      = some (v, now) := by
  rcases hst with h | h <;> subst h <;>
    simp [SetMetric, RATE, DELTA, GAUGE, ATTRIBUTE, hs, hfirst,
      storerEntry, storerGet_storerSet_self, lookupMetric_msInsert_self]

/-- Witness for C2 at a concrete first observation: key "k", value 5,
time 3, RATE, over an empty in-memory store. -/
theorem C2_witness :
    (SetMetric ⟨"e", [], some []⟩ "k" (.num 5) RATE 3).2 = none ∧
    lookupMetric (SetMetric ⟨"e", [], some []⟩ "k" (.num 5) RATE 3).1.Metrics "k"
      = some (.num 0) ∧
    storerEntry (SetMetric ⟨"e", [], some []⟩ "k" (.num 5) RATE 3).1 "k"
      = some (5, 3) :=
  C2_first_observation ⟨"e", [], some []⟩ [] "k" 5 3 RATE (Or.inl rfl) rfl rfl

/-- C1: For every metric key observed twice in the same session with a
bound Storer, numeric raw values v1 then v2 and elapsed time dt > 0, both
calls succeed; the second derived value placed in the result map is
v2 - v1 for DELTA and (v2 - v1) / dt for RATE, and in both cases the raw
current value and current timestamp overwrite the Storer baseline. -/
theorem C1_second_observation
    (ms : metric.Set) (s0 : Storer) (name : String) (v1 v2 t1 t2 : ℚ)
    (hs : ms.storer = some s0) (ht : t1 < t2) :
    (let r1 := SetMetric ms name (.num v1) DELTA t1
     let r2 := SetMetric r1.1 name (.num v2) DELTA t2
     r1.2 = none ∧ r2.2 = none ∧
     lookupMetric r2.1.Metrics name = some (.num (v2 - v1)) ∧
     storerEntry r2.1 name = some (v2, t2)) ∧
    (let r1 := SetMetric ms name (.num v1) RATE t1
     let r2 := SetMetric r1.1 name (.num v2) RATE t2
     r1.2 = none ∧ r2.2 = none ∧
     lookupMetric r2.1.Metrics name = some (.num ((v2 - v1) / (t2 - t1))) ∧
     storerEntry r2.1 name = some (v2, t2)) := by
  have hdt : ¬ (t2 - t1 ≤ 0) := by
    rw [sub_nonpos]; exact not_le.mpr ht
  constructor <;>
    simp [SetMetric, RATE, DELTA, GAUGE, ATTRIBUTE, hs, hdt,
      storerEntry, storerGet_storerSet_self, lookupMetric_msInsert_self]

/-- Witness for C1 at concrete inputs: values 1 then 11 at times 0 then 1
(matching the 2nd-data-in-key case of the tests: delta 10, rate 10). -/
theorem C1_witness :
    (let r1 := SetMetric ⟨"e", [], some []⟩ "k" (.num 1) DELTA 0
     let r2 := SetMetric r1.1 "k" (.num 11) DELTA 1
     r1.2 = none ∧ r2.2 = none ∧
     lookupMetric r2.1.Metrics "k" = some (.num (11 - 1)) ∧
     storerEntry r2.1 "k" = some (11, 1)) ∧
    (let r1 := SetMetric ⟨"e", [], some []⟩ "k" (.num 1) RATE 0
     let r2 := SetMetric r1.1 "k" (.num 11) RATE 1
     r1.2 = none ∧ r2.2 = none ∧
     lookupMetric r2.1.Metrics "k" = some (.num ((11 - 1) / (1 - 0))) ∧
     storerEntry r2.1 "k" = some (11, 1)) :=
  C1_second_observation ⟨"e", [], some []⟩ [] "k" 1 11 0 1 rfl (by norm_num)

/-- C3 counterexample: the claim says a RATE call on a nil-Storer set
fails with NoStorerConfigured for every value, but for the non-numeric
value "bar" the validation order of the spec (rule 3 before rule 5)
produces InvalidValueType instead. -/
theorem C3_counterexample :
    (SetMetric ⟨"some-event-type", [], none⟩ "foo" (.str "bar") RATE 0).2
        = some (.InvalidValueType "non-numeric source type for metric foo") ∧
    (SetMetric ⟨"some-event-type", [], none⟩ "foo" (.str "bar") RATE 0).2
        ≠ some .NoStorerConfigured := by
  constructor <;> decide

/-- C3 (amended): for every metric name and every numeric value, a RATE
or DELTA call on a Metric Set with no bound Storer fails with
NoStorerConfigured, whose message is "integrations built with no store
can\x27t use deltas and rates", and leaves the set unchanged. -/
theorem C3_nil_storer (ms : metric.Set) (name : String) (v now : ℚ)
    (st : SourceType)
    (hst : st = RATE ∨ st = DELTA)
    (hs : ms.storer = none) :
    SetMetric ms name (.num v) st now = (ms, some .NoStorerConfigured) ∧
    errorMessage .NoStorerConfigured =
      "integrations built with no store can\x27t use deltas and rates" := by
  rcases hst with h | h <;> subst h <;>
    simp [SetMetric, RATE, DELTA, GAUGE, ATTRIBUTE, hs, errorMessage]

/-- Witness for the amended C3 at a concrete numeric RATE call with no
bound Storer. -/
theorem C3_witness :
    SetMetric ⟨"e", [], none⟩ "foo" (.num 1) RATE 0
      = (⟨"e", [], none⟩, some .NoStorerConfigured) ∧
    errorMessage .NoStorerConfigured =
      "integrations built with no store can\x27t use deltas and rates" :=
  C3_nil_storer ⟨"e", [], none⟩ "foo" 1 0 RATE (Or.inl rfl) rfl

/-- C4: every non-numeric value submitted with GAUGE, RATE or DELTA, and
every non-string value submitted with ATTRIBUTE, fails with
InvalidValueType, and the whole Metric Set (in particular the result-map
entry for that key) is left unchanged by the failing call. -/
theorem C4_invalid_value (ms : metric.Set) (name s : String) (q now : ℚ)
    (st : SourceType) :
    ((st = GAUGE ∨ st = RATE ∨ st = DELTA) →
      SetMetric ms name (.str s) st now =
        (ms, some (.InvalidValueType
          ("non-numeric source type for metric " ++ name)))) ∧
    SetMetric ms name (.num q) ATTRIBUTE now =
      (ms, some (.InvalidValueType
        ("non-string source type for attribute " ++ name))) := by
  constructor
  · rintro (h | h | h) <;> subst h <;>
      simp [SetMetric, RATE, DELTA, GAUGE, ATTRIBUTE]
  · simp [SetMetric, RATE, DELTA, GAUGE, ATTRIBUTE]

/-- Witness for C4: a string value under GAUGE and a numeric value under
ATTRIBUTE, both at concrete inputs. -/
theorem C4_witness :
    (SetMetric ⟨"e", [], none⟩ "foo" (.str "bar") GAUGE 0 =
      (⟨"e", [], none⟩, some (.InvalidValueType
        ("non-numeric source type for metric " ++ "foo")))) ∧
    SetMetric ⟨"e", [], none⟩ "foo" (.num 1) ATTRIBUTE 0 =
      (⟨"e", [], none⟩, some (.InvalidValueType
        ("non-string source type for attribute " ++ "foo"))) :=
  ⟨(C4_invalid_value ⟨"e", [], none⟩ "foo" "bar" 1 0 GAUGE).1 (Or.inl rfl),
   (C4_invalid_value ⟨"e", [], none⟩ "foo" "bar" 1 0 GAUGE).2⟩

/-- C5: for every source-type code outside the four defined values,
`SetMetric` fails with UnknownSourceType for any name and any value, and
leaves the set unchanged. -/
theorem C5_unknown_source_type (ms : metric.Set) (name : String)
    (value : MValue) (now : ℚ) (st : SourceType)
    (h : ¬ (st = GAUGE ∨ st = RATE ∨ st = DELTA ∨ st = ATTRIBUTE)) :
    SetMetric ms name value st now = (ms, some (.UnknownSourceType name)) := by
  simp [SetMetric, h]

/-- Witness for C5 at the concrete out-of-range code 666 used by the
tests. -/
theorem C5_witness :
    SetMetric ⟨"e", [], none⟩ "foo" (.num 1) 666 0
      = (⟨"e", [], none⟩, some (.UnknownSourceType "foo")) :=
  C5_unknown_source_type ⟨"e", [], none⟩ "foo" (.num 1) 0 666 (by decide)

/-- C6: serialization orders fields lexicographically by name for every
Metric Set (event_type sorted among the metric names), and on the concrete
session of the tests (foo=1 RATE first sample, bar=1 DELTA first sample,
baz=1 GAUGE, quux="bar" ATTRIBUTE, event type "some-event-type") the
serialized bytes are exactly the expected payload. -/
theorem C6_marshal :
    (∀ ms : metric.Set,
      List.Sorted (· ≤ ·) ((marshalEntries ms).map Prod.fst)) ∧
    (MarshalJSON
        (SetMetric
          (SetMetric
            (SetMetric
              (SetMetric ⟨"some-event-type", [], some []⟩
                "foo" (.num 1) RATE 1).1
              "bar" (.num 1) DELTA 2).1
            "baz" (.num 1) GAUGE 3).1
          "quux" (.str "bar") ATTRIBUTE 4).1
      = "\x7b\"bar\":0,\"baz\":1,\"event_type\":\"some-event-type\",\"foo\":0,\"quux\":\"bar\"\x7d") :=
  ⟨marshalEntries_sorted, by decide⟩

/-- A successful v1 build yields the builder's locker, defaulted to the
no-op disabled locker when none was installed. -/
theorem v1_build_locker (env : integration.BuildEnv) (b : integration.Builder)
    (i : integration.Integration) (h : integration.Build env b = .ok i) :
    i.locker = some (match b.integration.locker with
      | none => integration.Locker.disabled
      | some l => l) := by
  simp only [integration.Build] at h
  split at h
  · simp at h
  · split at h
    · simp at h
    · split at h
      · simp at h
      · split at h
        · simp only [Except.ok.injEq] at h
          subst h
          rfl
        · split at h
          · simp at h
          · simp only [Except.ok.injEq] at h
            subst h
            rfl

/-- A successful v2 build yields the builder's locker, defaulted to the
no-op disabled locker when none was installed. -/
theorem v2_build_locker (env : v2.BuildEnv) (b : v2.Builder)
    (i : v2.Integration) (h : v2.Build env b = .ok i) :
    i.locker = some (match b.integration.locker with
      | none => integration.Locker.disabled
      | some l => l) := by
  simp only [v2.Build] at h
  split at h
  · simp at h
  · split at h
    · simp at h
    · split at h
      · simp at h
      · split at h
        · split at h
          · simp at h
          · simp only [Except.ok.injEq] at h
            subst h
            rfl
        · simp only [Except.ok.injEq] at h
          subst h
          rfl

/-- C7: for every builder (v1 or v2) on which Synchronized was not called
(locker still nil), a successful Build installs the no-op disabled locker,
so every successfully built integration has a non-nil locker; if
Synchronized was called, the locker is the mutual-exclusion mutex. -/
theorem C7_locker :
    (∀ (env : integration.BuildEnv) (b : integration.Builder)
        (i : integration.Integration),
        integration.Build env b = .ok i → i.locker ≠ none) ∧
    (∀ (env : integration.BuildEnv) (b : integration.Builder)
        (i : integration.Integration),
        b.integration.locker = none → integration.Build env b = .ok i →
          i.locker = some .disabled) ∧
    (∀ (env : integration.BuildEnv) (b : integration.Builder)
        (i : integration.Integration),
        integration.Build env (integration.Synchronized b) = .ok i →
          i.locker = some .mutex) ∧
    (∀ (env : v2.BuildEnv) (b : v2.Builder) (i : v2.Integration),
        v2.Build env b = .ok i → i.locker ≠ none) ∧
    (∀ (env : v2.BuildEnv) (b : v2.Builder) (i : v2.Integration),
        b.integration.locker = none → v2.Build env b = .ok i →
          i.locker = some .disabled) ∧
    (∀ (env : v2.BuildEnv) (b : v2.Builder) (i : v2.Integration),
        v2.Build env (v2.Synchronized b) = .ok i → i.locker = some .mutex) := by
  refine ⟨?_, ?_, ?_, ?_, ?_, ?_⟩
  · intro env b i h
    rw [v1_build_locker env b i h]
    cases b.integration.locker <;> simp
  · intro env b i hl h
    rw [v1_build_locker env b i h, hl]
  · intro env b i h
    rw [v1_build_locker env (integration.Synchronized b) i h]
    rfl
  · intro env b i h
    rw [v2_build_locker env b i h]
    cases b.integration.locker <;> simp
  · intro env b i hl h
    rw [v2_build_locker env b i h, hl]
  · intro env b i h
    rw [v2_build_locker env (v2.Synchronized b) i h]
    rfl

/-- Witness for C7: a fresh v1 builder builds with the disabled locker and
a synchronized v2 builder builds with the mutex. -/
theorem C7_witness :
    ((integration.NewBuilder "nri" "1.0").integration.locker = none ∧
      integration.Build env1ex (integration.NewBuilder "nri" "1.0") = .ok i1ex ∧
      i1ex.locker = some .disabled) ∧
    (v2.Build env2ex (v2.Synchronized (v2.NewIntegration "nri" "1.0")) = .ok i2ex ∧
      i2ex.locker = some .mutex) :=
  ⟨⟨rfl, rfl,
    C7_locker.2.1 env1ex (integration.NewBuilder "nri" "1.0") i1ex rfl rfl⟩,
   ⟨rfl,
    C7_locker.2.2.2.2.2 env2ex (v2.NewIntegration "nri" "1.0") i2ex rfl⟩⟩

/-- The arguments check fails (necessarily with the arguments error) iff
the destination is a non-nil value that is not a pointer to a struct. -/
theorem v1_checkArguments_error_iff (a : Option integration.Arguments) :
    integration.checkArguments a = .error .argumentsInvalid ↔
      ∃ x, a = some x ∧ integration.isPtrToStruct x = false := by
  rcases a with _ | x
  · simp [integration.checkArguments]
  · by_cases hx : integration.isPtrToStruct x <;>
      simp [integration.checkArguments, hx]

/-- The v1 Build reports the arguments error exactly when its arguments
check does (given the writer check passes first). -/
theorem v1_build_argumentsInvalid_iff (env : integration.BuildEnv)
    (b : integration.Builder) (hw : b.integration.writer ≠ none) :
    integration.Build env b = .error .argumentsInvalid ↔
      integration.checkArguments b.arguments = .error .argumentsInvalid := by
  simp only [integration.Build]
  rw [if_neg hw]
  rcases hca : integration.checkArguments b.arguments with e | a
  · simp [hca]
  · simp only [hca]
    constructor
    · intro h
      exfalso
      split at h
      · simp at h
      · split at h
        · simp at h
        · split at h
          · simp at h
          · simp at h
    · intro h
      simp at h

/-- The v2 Build reports the arguments error exactly when its arguments
check does (given the writer check passes first). -/
theorem v2_build_argumentsInvalid_iff (env : v2.BuildEnv)
    (b : v2.Builder) (hw : b.integration.writer ≠ none) :
    v2.Build env b = .error .argumentsInvalid ↔
      v2.checkArguments b.arguments = .error .argumentsInvalid := by
  simp only [v2.Build]
  rw [if_neg hw]
  rcases hca : v2.checkArguments b.arguments with e | a
  · simp [hca]
  · simp only [hca]
    constructor
    · intro h
      exfalso
      split at h
      · simp at h
      · split at h
        · split at h
          · simp at h
          · simp at h
        · simp at h
    · intro h
      simp at h

/-- Same characterization for the v2 arguments check. -/
theorem v2_checkArguments_error_iff (a : Option integration.Arguments) :
    v2.checkArguments a = .error .argumentsInvalid ↔
      ∃ x, a = some x ∧ integration.isPtrToStruct x = false := by
  rcases a with _ | x
  · simp [v2.checkArguments]
  · by_cases hx : integration.isPtrToStruct x <;>
      simp [v2.checkArguments, hx]

/-- C8: in both builders a nil parsed-arguments destination is replaced by
a pointer to an empty struct and accepted, a pointer-to-struct destination
is accepted as-is, and Build fails on the parsed-arguments check if and
only if the destination is neither nil nor a pointer to a struct. -/
theorem C8_check_arguments :
    (integration.checkArguments none = .ok .ptrEmptyStruct ∧
      v2.checkArguments none = .ok .ptrEmptyStruct) ∧
    (∀ x, integration.isPtrToStruct x = true →
      integration.checkArguments (some x) = .ok x ∧
      v2.checkArguments (some x) = .ok x) ∧
    (∀ (env : integration.BuildEnv) (b : integration.Builder),
      b.integration.writer ≠ none →
        (integration.Build env b = .error .argumentsInvalid ↔
          ∃ x, b.arguments = some x ∧ integration.isPtrToStruct x = false)) ∧
    (∀ (env : v2.BuildEnv) (b : v2.Builder),
      b.integration.writer ≠ none →
        (v2.Build env b = .error .argumentsInvalid ↔
          ∃ x, b.arguments = some x ∧ integration.isPtrToStruct x = false)) := by
  refine ⟨⟨rfl, rfl⟩, ?_, ?_, ?_⟩
  · intro x hx
    constructor <;> simp [integration.checkArguments, v2.checkArguments, hx]
  · intro env b hw
    rw [v1_build_argumentsInvalid_iff env b hw]
    exact v1_checkArguments_error_iff b.arguments
  · intro env b hw
    rw [v2_build_argumentsInvalid_iff env b hw]
    exact v2_checkArguments_error_iff b.arguments

/-- Witness for C8: a v1 builder whose destination is a non-pointer value
fails its build with the arguments error. -/
theorem C8_witness :
    integration.Build env1ex
        (integration.ParsedArguments (integration.NewBuilder "x" "y")
          (some (.nonPointer 0))) = .error .argumentsInvalid :=
  (C8_check_arguments.2.2.1 env1ex
      (integration.ParsedArguments (integration.NewBuilder "x" "y")
        (some (.nonPointer 0))) (by decide)).mpr
    ⟨.nonPointer 0, rfl, rfl⟩

/-- C10: if NoCache was the last cache-configuring call, a successful v2
Build leaves the Cache nil and never consults the default cache
constructor (the result is independent of it); on a fresh builder the
Build constructs the disk cache at the default path derived from the
integration name, and fails with the cache error when that construction
fails. -/
theorem C10_cache :
    (∀ (env : v2.BuildEnv) (b : v2.Builder) (i : v2.Integration),
        v2.Build env (v2.NoCache b) = .ok i → i.Cache = none) ∧
    (∀ (env : v2.BuildEnv) (f : String → Except String v2.CacheRef)
        (b : v2.Builder),
        v2.Build env (v2.NoCache b) =
          v2.Build { env with newCache := f } (v2.NoCache b)) ∧
    (∀ (env : v2.BuildEnv) (n v : String) (c : v2.CacheRef),
        env.setupArgsOk = true →
        env.newCache (v2.DefaultPath n) = .ok c →
        v2.Build env (v2.NewIntegration n v) =
          .ok { Name := n, ProtocolVersion := "2", IntegrationVersion := v,
                Data := [], writer := some .stdout, locker := some .disabled,
                Cache := some c, prettyOutput := env.pretty }) ∧
    (∀ (env : v2.BuildEnv) (n v e : String),
        env.setupArgsOk = true →
        env.newCache (v2.DefaultPath n) = .error e →
        v2.Build env (v2.NewIntegration n v) = .error (.cacheFailed e)) := by
  refine ⟨?_, ?_, ?_, ?_⟩
  · intro env b i h
    simp only [v2.Build, v2.NoCache] at h
    split at h
    · simp at h
    · split at h
      · simp at h
      · split at h
        · simp at h
        · split at h
          · simp_all
          · simp only [Except.ok.injEq] at h
            subst h
            rfl
  · intro env f b
    simp [v2.Build, v2.NoCache]
  · intro env n v c hsetup hc
    simp [v2.Build, v2.NewIntegration, v2.checkArguments, hsetup, hc]
  · intro env n v e hsetup hc
    simp [v2.Build, v2.NewIntegration, v2.checkArguments, hsetup, hc]

/-- Witness for C10: a fresh v2 builder under a succeeding environment
builds with the disk cache at the default path for its name. -/
theorem C10_witness :
    v2.Build env2ex (v2.NewIntegration "nri" "1.0") =
      .ok { Name := "nri", ProtocolVersion := "2", IntegrationVersion := "1.0",
            Data := [], writer := some .stdout, locker := some .disabled,
            Cache := some (.disk "/tmp/nri.json"),
            prettyOutput := env2ex.pretty } :=
  C10_cache.2.2.1 env2ex "nri" "1.0" (.disk "/tmp/nri.json") rfl rfl

/-- C9 counterexample: the claim that All keeps its parsed value whenever
at least one of Metrics, Inventory, Events is set fails, because
LoadDefaultArgs evaluates its check at registration time, when every flag
variable has just been reset to its default false; at the concrete input
where only the metrics flag is provided (so its parsed value of all is the
default false), All nevertheless ends up true. -/
theorem C9_counterexample :
    ¬ (∀ (p : args.ProvidedFlags) (s0 : args.ArgsState),
        ((args.flagParse p (args.LoadDefaultArgs s0)).Metrics ||
         (args.flagParse p (args.LoadDefaultArgs s0)).Inventory ||
         (args.flagParse p (args.LoadDefaultArgs s0)).Events) = true →
        (args.flagParse p (args.LoadDefaultArgs s0)).All = p.all.getD false) := by
  intro h
  have hc := h ⟨none, none, none, some true, none, none⟩
    ⟨false, false, false, false, false, false⟩ (by decide)
  exact absurd hc (by decide)

/-- C9 (amended): LoadDefaultArgs resets all six globals to their defaults
and then unconditionally forces All to true (the none-selected check runs
before any flag parsing, when Metrics, Inventory and Events are all
false); consequently, after the later parse, All is true whenever the all
flag was not explicitly provided, and equals the provided value when it
was. -/
theorem C9_load_default_args :
    (∀ s : args.ArgsState,
      args.LoadDefaultArgs s =
        { Verbose := false, Pretty := false, All := true,
          Metrics := false, Inventory := false, Events := false }) ∧
    (∀ (p : args.ProvidedFlags) (s : args.ArgsState), p.all = none →
      (args.flagParse p (args.LoadDefaultArgs s)).All = true) ∧
    (∀ (p : args.ProvidedFlags) (s : args.ArgsState) (bv : Bool),
      p.all = some bv →
      (args.flagParse p (args.LoadDefaultArgs s)).All = bv) := by
  refine ⟨?_, ?_, ?_⟩
  · intro s
    rfl
  · intro p s h
    simp [args.flagParse, args.LoadDefaultArgs, args.boolVar, h]
  · intro p s bv h
    simp [args.flagParse, args.LoadDefaultArgs, args.boolVar, h]

/-- Witness for the amended C9: with only the metrics flag provided, after
registration and parsing, Metrics is true and All is still true. -/
theorem C9_witness :
    (args.flagParse ⟨none, none, none, some true, none, none⟩
        (args.LoadDefaultArgs ⟨true, true, false, true, false, true⟩)).Metrics
      = true ∧
    (args.flagParse ⟨none, none, none, some true, none, none⟩
        (args.LoadDefaultArgs ⟨true, true, false, true, false, true⟩)).All
      = true :=
  ⟨by decide,
   C9_load_default_args.2.1 ⟨none, none, none, some true, none, none⟩
     ⟨true, true, false, true, false, true⟩ rfl⟩
